import Mathlib

/-!
Verification of the PiCar-X "Okay Robot" voice-control system.

This file gives a shallow embedding of the control logic of the repository
(`okay_robot.py`, `actions.py`, `keyboard_control.py`, `config.py`) and proves
properties of it.  Pure decision logic (command dispatch, threshold branching,
the patrol sweep, line-loss recovery) is embedded as executable functions; the
polling loops (safety monitor, command loop) are embedded as recursions over a
list of per-tick inputs; hardware calls are reified as an `Act` data type, and
the unsynchronized concurrency of the actuator calls is modelled by the set of
order-preserving interleavings of the per-thread call sequences.
-/

namespace OkayRobot

/-- Reified actuator calls (the `car.*` methods used by the repository),
with `sleepMs` recording a `time.sleep` hold between calls.  Angles are
degrees (integers in the source), speeds are the 0-100 integer scale. -/
inductive Act where
  | setDir (a : Int)
  | setCamPan (a : Int)
  | setCamTilt (a : Int)
  | fwd (speed : Nat)
  | bwd (speed : Nat)
  | halt
  | sleepMs (ms : Nat)
deriving DecidableEq, Repr

/-- The two autonomous driving modes of `RobotState.autonomous_mode`;
`none` at the `Option` level is the source's `None`. -/
inductive AutoMode where
  | line_track
  | obstacle_avoid
deriving DecidableEq, Repr

-- Configuration constants from `config.py`.

def MOVE_SPEED : Nat := 30

def LINE_TRACK_SPEED : Nat := 10

def LINE_TRACK_OFFSET : Int := 20

def SAFE_DISTANCE : ℚ := 40

def DANGER_DISTANCE : ℚ := 20

def TOO_CLOSE_DISTANCE : ℚ := 10

def COMMAND_TIMEOUT_SECONDS : ℚ := 30

def WAKE_WORDS : List String := ["okay robot", "ok robot", "hey robot"]

-- String helpers mirroring the Python operations used by the dispatcher.

/-- Python `str.lower()` (ASCII case folding, which is all the commands use). -/
def lowerStr (s : String) : String := ⟨s.data.map Char.toLower⟩

/-- Python `str.strip()`: drop whitespace from both ends. -/
def trimChars (l : List Char) : List Char :=
  ((l.dropWhile (·.isWhitespace)).reverse.dropWhile (·.isWhitespace)).reverse

/-- The normalization `text.lower().strip()` applied at the top of
`process_command_keyword` and `process_command_llm`. -/
def normText (s : String) : String := ⟨trimChars (s.data.map Char.toLower)⟩

/-- Python substring containment `needle in hay`. -/
def substrB (needle hay : String) : Bool :=
  hay.data.tails.any (fun t => needle.data.isPrefixOf t)

/-- Stable insertion (keeps `x` before later elements of equal length):
auxiliary step of the stable length-descending sort below. -/
def insertByLen (x : String) : List String → List String
  | [] => [x]
  | y :: ys => if x.length < y.length then y :: insertByLen x ys else x :: y :: ys

/-- Python `sorted(keys, key=len, reverse=True)`: a stable sort by
descending length. -/
def sortByLenDesc (l : List String) : List String := l.foldr insertByLen []

-- The action library of `actions.py`.

/-- One identifier per action function of `actions.py`. -/
inductive Action where
  | forward
  | backward
  | turn_left
  | turn_right
  | stop
  | look_left
  | look_right
  | look_up
  | look_down
  | look_center
  | shake_head
  | nod
  | wave_hands
  | resist
  | act_cute
  | rub_hands
  | think
  | twist_body
  | celebrate
  | depressed
  | spin_around
  | dance
  | patrol
  | reset_position
deriving DecidableEq, Repr

/-- `ACTIONS_DICT` of `actions.py`, in source (insertion) order. -/
def ACTIONS_DICT : List (String × Action) := [
  ("forward",       .forward),
  ("go forward",    .forward),
  ("move forward",  .forward),
  ("go ahead",      .forward),
  ("backward",      .backward),
  ("go backward",   .backward),
  ("move backward", .backward),
  ("go back",       .backward),
  ("reverse",       .backward),
  ("back up",       .backward),
  ("turn left",     .turn_left),
  ("go left",       .turn_left),
  ("left",          .turn_left),
  ("turn right",    .turn_right),
  ("go right",      .turn_right),
  ("right",         .turn_right),
  ("stop",          .stop),
  ("halt",          .stop),
  ("freeze",        .stop),
  ("look left",     .look_left),
  ("look right",    .look_right),
  ("look up",       .look_up),
  ("look down",     .look_down),
  ("look center",   .look_center),
  ("center",        .look_center),
  ("shake head",    .shake_head),
  ("say no",        .shake_head),
  ("nod",           .nod),
  ("say yes",       .nod),
  ("wave",          .wave_hands),
  ("wave hands",    .wave_hands),
  ("resist",        .resist),
  ("refuse",        .resist),
  ("act cute",      .act_cute),
  ("cute",          .act_cute),
  ("rub hands",     .rub_hands),
  ("think",         .think),
  ("thinking",      .think),
  ("twist",         .twist_body),
  ("twist body",    .twist_body),
  ("celebrate",     .celebrate),
  ("party",         .celebrate),
  ("happy",         .celebrate),
  ("depressed",     .depressed),
  ("sad",           .depressed),
  ("spin",          .spin_around),
  ("spin around",   .spin_around),
  ("dance",         .dance),
  ("patrol",        .patrol),
  ("reset",         .reset_position)]

/-- The keyword column of `ACTIONS_DICT`, in insertion order
(Python `ACTIONS_DICT.keys()`). -/
def keysList : List String := ACTIONS_DICT.map Prod.fst

/-- `sorted(ACTIONS_DICT.keys(), key=len, reverse=True)` from
`process_command_keyword`. -/
def sortedKeys : List String := sortByLenDesc keysList

/-- Python dict lookup `ACTIONS_DICT[k]` (keys are unique in the source). -/
def lookupAction (k : String) : Option Action :=
  (ACTIONS_DICT.find? (fun p => p.1 == k)).map Prod.snd

/-- Actuator script of `actions.turn_left` (defaults speed=30, angle=25,
duration=1.0). -/
def turnLeftActs : List Act :=
  [.setDir (-25), .fwd 30, .sleepMs 1000, .halt, .setDir 0]

/-- Actuator script of `actions.turn_right` (defaults). -/
def turnRightActs : List Act :=
  [.setDir 25, .fwd 30, .sleepMs 1000, .halt, .setDir 0]

/-- Actuator script of `actions.forward` (defaults speed=30, duration=1.0):
the `Manual`-priority script used in the interleaving analysis. -/
def manualForwardActs : List Act :=
  [.setDir 0, .fwd 30, .sleepMs 1000, .halt]

/-- Actuator script of `actions.reset_position`: stop and neutralize
every servo. -/
def resetPositionActs : List Act :=
  [.halt, .setDir 0, .setCamPan 0, .setCamTilt 0]

-- Patrol sweep (`actions.patrol`).

/-- One tick of the `patrol` sweep state `(angle, direction)`: the source
sends the current angle, then does `angle += 5 * direction` and reverses
`direction` when the new angle passes a bound of plus or minus 45. -/
def patrolStep : Int × Int → Int × Int := fun p =>
  let a := p.1 + 5 * p.2
  (a, if a > 45 ∨ a < -45 then -p.2 else p.2)

/-- Sweep state before tick `n`, starting from `angle = 0`, `direction = 1`. -/
def patrolIter : Nat → Int × Int
  | 0 => (0, 1)
  | n + 1 => patrolStep (patrolIter n)

/-- The pan angle commanded by `car.set_cam_pan_angle` on tick `n` of the
patrol sweep. -/
def patrolAngle (n : Nat) : Int := (patrolIter n).1

-- Safety monitor (`okay_robot.safety_monitor`).

/-- The `Emergency` sequence of the too-close branch: neutral steering,
backward at `MOVE_SPEED` for 0.5 s, stop. -/
def emergencySeq : List Act :=
  [.setDir 0, .bwd MOVE_SPEED, .sleepMs 500, .halt]

/-- The steer-away sequence of the danger branch. -/
def safetyAvoidSeq : List Act :=
  [.setDir 30, .fwd MOVE_SPEED, .sleepMs 300]

/-- The stop-and-backoff sequence of the cliff branch. -/
def cliffSeq : List Act :=
  [.halt, .setDir 0, .bwd MOVE_SPEED, .sleepMs 600, .halt]

/-- The obstacle-avoidance part of one `safety_monitor` tick, given a
successfully read distance `d`: the source treats `d > 0` as a valid
reading; below `TOO_CLOSE_DISTANCE` it runs the emergency sequence and sets
`too_close`; below `DANGER_DISTANCE` in `obstacle_avoid` mode it steers
away; otherwise it clears `too_close`.  Returns the actuator calls and the
new `too_close` flag. -/
def safetyTickDist (d : ℚ) (mode : Option AutoMode) (tooClose : Bool) :
    List Act × Bool :=
  if 0 < d then
    if d < TOO_CLOSE_DISTANCE then (emergencySeq, true)
    else if d < DANGER_DISTANCE ∧ mode = some .obstacle_avoid then
      (safetyAvoidSeq, tooClose)
    else ([], false)
  else ([], tooClose)

/-- One tick of the safety monitor as seen from outside: `running` is the
value of `state.running` observed at the top of the loop, `distRead` is the
ultrasonic read (`none` = the read raised, caught by the inner `except`),
`mode` is the current `autonomous_mode`, and `cliffRead` is the grayscale
read composed with `get_cliff_status` (`none` = the read raised). -/
structure STick where
  running : Bool
  distRead : Option ℚ
  mode : Option AutoMode
  cliffRead : Option Bool
deriving DecidableEq

/-- Actuator calls of one `safety_monitor` iteration and the resulting
`too_close` flag: a failed sensor read contributes nothing (the bare
`except: pass` of the source) and leaves the flag unchanged. -/
def safetyTickActs (t : STick) (tooClose : Bool) : List Act × Bool :=
  let p1 : List Act × Bool :=
    match t.distRead with
    | none => ([], tooClose)
    | some d => safetyTickDist d t.mode tooClose
  let a2 : List Act :=
    match t.cliffRead with
    | none => []
    | some c => if c then cliffSeq else []
  (p1.1 ++ a2, p1.2)

/-- The `while state.running` loop of `safety_monitor` over a list of tick
inputs: one effect list per executed tick, stopping exactly when `running`
is observed false. -/
def safetyRun (tooClose : Bool) : List STick → List (List Act)
  | [] => []
  | t :: ts =>
    if t.running then
      let r := safetyTickActs t tooClose
      r.1 :: safetyRun r.2 ts
    else []

-- Line tracking (`okay_robot.line_tracking_loop`).

/-- The four values of the loop-local `gm_state` string. -/
inductive GmState where
  | stopS
  | forwardS
  | leftS
  | rightS
deriving DecidableEq, Repr

/-- Classification of the 3-element `get_line_status` array, exactly as the
source branches on it: `[0,0,0]` is lost, else center sensor, else index 0
(labelled "right" in the source), else index 2 (labelled "left"), else
lost. -/
def classify (s0 s1 s2 : Nat) : GmState :=
  if s0 = 0 ∧ s1 = 0 ∧ s2 = 0 then .stopS
  else if s1 = 1 then .forwardS
  else if s0 = 1 then .rightS
  else if s2 = 1 then .leftS
  else .stopS

/-- One iteration of `line_tracking_loop`: given the last non-lost
classification (`last_state`) and the sensor triple, returns the updated
`last_state` and the actuator calls of the iteration.  On a lost line the
source steers -30 and backs up when `last_state` was "left", and steers
+30 and backs up when it was "right". -/
def lineTrackTick (lastSt : GmState) (s0 s1 s2 : Nat) : GmState × List Act :=
  let gm := classify s0 s1 s2
  let lastSt2 := if gm ≠ .stopS then gm else lastSt
  let acts : List Act :=
    match gm with
    | .forwardS => [.setDir 0, .fwd LINE_TRACK_SPEED]
    | .leftS => [.setDir LINE_TRACK_OFFSET, .fwd LINE_TRACK_SPEED]
    | .rightS => [.setDir (-LINE_TRACK_OFFSET), .fwd LINE_TRACK_SPEED]
    | .stopS =>
      match lastSt2 with
      | .leftS => [.setDir (-30), .bwd 10]
      | .rightS => [.setDir 30, .bwd 10]
      | _ => []
  (lastSt2, acts)

/-- Whether an actuator script contains a negative steering command: the
direction-servo sign convention of the repository's own turn primitives
(`turn_left` steers -25, `turn_right` steers +25). -/
def steersLeftB (acts : List Act) : Bool :=
  acts.any fun a => match a with | .setDir x => decide (x < 0) | _ => false

/-- Whether a script contains a backward drive command. -/
def drivesBackwardB (acts : List Act) : Bool :=
  acts.any fun a => match a with | .bwd _ => true | _ => false

/-- Whether a script contains a forward drive command. -/
def drivesForwardB (acts : List Act) : Bool :=
  acts.any fun a => match a with | .fwd _ => true | _ => false

-- Keyword command dispatch (`okay_robot.process_command_keyword`).

def sleepWords : List String := ["sleep", "go to sleep", "goodbye", "bye"]

def stopModeWords : List String :=
  ["stop mode", "cancel mode", "exit mode", "normal mode"]

def lineModeWords : List String :=
  ["line tracking", "track line", "follow line", "line track", "follow the line"]

def obstacleModeWords : List String :=
  ["obstacle avoidance", "avoid obstacles", "obstacle mode", "avoid mode"]

def hornWords : List String := ["honk", "horn", "beep"]

def engineWords : List String := ["start engine", "engine"]

def statusWords : List String := ["status", "how are you", "what\x27s up"]

def helpWords : List String := ["help", "what can you do", "commands"]

def stopExactWords : List String := ["stop", "halt", "freeze"]

/-- Python `any(w in text for w in words)`. -/
def anySubstr (words : List String) (n : String) : Bool :=
  words.any (fun w => substrB w n)

def sleepB (n : String) : Bool := anySubstr sleepWords n

def stopModeB (n : String) : Bool := anySubstr stopModeWords n

def lineModeB (n : String) : Bool := anySubstr lineModeWords n

def obstacleModeB (n : String) : Bool := anySubstr obstacleModeWords n

def hornB (n : String) : Bool := anySubstr hornWords n

def engineB (n : String) : Bool := anySubstr engineWords n

def statusB (n : String) : Bool := anySubstr statusWords n

def helpB (n : String) : Bool := anySubstr helpWords n

/-- Python `text in ["stop", "halt", "freeze"]`. -/
def stopExactB (n : String) : Bool := stopExactWords.contains n

/-- Whether a normalized text hits any of the checks that
`process_command_keyword` performs before consulting `ACTIONS_DICT`, in
source order. -/
def sysMatchB (n : String) : Bool :=
  sleepB n || stopModeB n || lineModeB n || obstacleModeB n || hornB n ||
  engineB n || statusB n || helpB n || stopExactB n

/-- Outcome of `process_command_keyword`: which branch of the function
handled the command.  `exactMatch`/`substrMatch` carry the `ACTIONS_DICT`
keyword whose action is executed. -/
inductive KwResult where
  | noText
  | sleepCmd
  | stopModeCmd
  | lineModeCmd
  | obstacleModeCmd
  | hornCmd
  | engineCmd
  | statusCmd
  | helpCmd
  | stopAllCmd
  | exactMatch (k : String)
  | substrMatch (k : String)
  | notHandled
deriving DecidableEq, Repr

/-- Which outcomes are handled before any `ACTIONS_DICT` consultation. -/
def isSystemResult : KwResult → Bool
  | .sleepCmd => true
  | .stopModeCmd => true
  | .lineModeCmd => true
  | .obstacleModeCmd => true
  | .hornCmd => true
  | .engineCmd => true
  | .statusCmd => true
  | .helpCmd => true
  | .stopAllCmd => true
  | _ => false

/-- `process_command_keyword` of `okay_robot.py`: normalize, test the
system checks in source order (each a substring test except the bare
stop/halt/freeze, which is an exact full-text test), then an exact
`ACTIONS_DICT` lookup, then the first substring match over the keywords
sorted by descending length. -/
def processCommandKeyword (t : String) : KwResult :=
  let n := normText t
  if n = "" then .noText
  else if sleepB n then .sleepCmd
  else if stopModeB n then .stopModeCmd
  else if lineModeB n then .lineModeCmd
  else if obstacleModeB n then .obstacleModeCmd
  else if hornB n then .hornCmd
  else if engineB n then .engineCmd
  else if statusB n then .statusCmd
  else if helpB n then .helpCmd
  else if stopExactB n then .stopAllCmd
  else if keysList.contains n then .exactMatch n
  else
    match sortedKeys.find? (fun k => substrB k n) with
    | some k => .substrMatch k
    | none => .notHandled

-- Chat-assisted dispatch (`okay_robot.process_command_llm`).

/-- Outcome of `process_command_llm`.  `chatHandled` carries the raw chat
response (its speech/ACTIONS parsing is not needed by the claims);
`fellBack` carries the keyword-dispatch outcome of the fallback path. -/
inductive LlmResult where
  | noText
  | localSleep
  | localStop
  | chatHandled (response : String)
  | fellBack (r : KwResult)
deriving DecidableEq, Repr

/-- The too-close annotation `process_command_llm` prepends to the text
before the chat call when `state.too_close` is set (`distStr` is the
rendered ultrasonic distance). -/
def annotate (tooClose : Bool) (distStr : String) (t : String) : String :=
  if tooClose then "<<<Ultrasonic sense too close: " ++ distStr ++ "cm>>> " ++ t
  else t

/-- `process_command_llm` with the chat collaborator reified: `resp` is
`some r` when `llm.chat` returned `r` and `none` when it raised.  Sleep and
the bare stop are handled locally before the chat call; on chat failure the
function falls back to `process_command_keyword` on the (possibly
annotated) text. -/
def processCommandLLM (resp : Option String) (tooClose : Bool)
    (distStr : String) (t : String) : LlmResult :=
  let n := normText t
  if n = "" then .noText
  else if sleepB n then .localSleep
  else if stopExactB n then .localStop
  else
    let t2 := annotate tooClose distStr n
    match resp with
    | some r => .chatHandled r
    | none => .fellBack (processCommandKeyword t2)

-- Main command loop (`okay_robot.main`, phase 2) and keyboard dispatch.

/-- The `RobotState` fields the command loop reads and writes
(`running` is carried separately; `last` is `last_command_time`). -/
structure CmdState where
  awake : Bool
  mode : Option AutoMode
  last : ℚ
deriving DecidableEq

/-- Side effects of the dispatchers beyond pure actuator calls. -/
inductive Effect where
  | prim (a : Act)
  | runAction (a : Action)
  | soundHorn
  | soundEngine
  | startLine
  | startObstacle
deriving DecidableEq, Repr

/-- `reset_position` as `Effect`s. -/
def resetEff : List Effect :=
  [.prim .halt, .prim (.setDir 0), .prim (.setCamPan 0), .prim (.setCamTilt 0)]

/-- State change and effects of acting on a `process_command_keyword`
outcome, as the corresponding branch bodies of the source do. -/
def applyDispatch (r : KwResult) (s : CmdState) : CmdState × List Effect :=
  match r with
  | .noText => (s, [])
  | .sleepCmd => ({ s with awake := false, mode := none }, resetEff)
  | .stopModeCmd => ({ s with mode := none }, [.prim .halt, .prim (.setDir 0)])
  | .lineModeCmd => ({ s with mode := some .line_track }, [.startLine])
  | .obstacleModeCmd =>
      ({ s with mode := some .obstacle_avoid }, [.startObstacle])
  | .hornCmd => (s, [.soundHorn])
  | .engineCmd => (s, [.soundEngine])
  | .statusCmd => (s, [])
  | .helpCmd => (s, [])
  | .stopAllCmd => ({ s with mode := none }, [.prim .halt, .prim (.setDir 0)])
  | .exactMatch k =>
      (s, match lookupAction k with | some a => [.runAction a] | none => [])
  | .substrMatch k =>
      (s, match lookupAction k with | some a => [.runAction a] | none => [])
  | .notHandled => (s, [])

/-- The inner command loop of `main` over a list of per-iteration inputs
`(now, heard)`: `now` is the wall clock at the timeout check and `heard`
is the STT result (`none` = error or empty text, both of which `continue`
without touching `last_command_time`).  Returns the final state, the
accumulated effects, and the number of Awake-to-Asleep transitions.  The
timeout branch neutralizes the actuators via `reset_position` and breaks
out of the loop; `state.running` is taken as constantly true for the
episode (shutdown is a signal outside this loop). -/
def cmdRun (T : ℚ) (s : CmdState) :
    List (ℚ × Option String) → CmdState × List Effect × Nat
  | [] => (s, [], 0)
  | (now, heard) :: rest =>
    if s.awake then
      if now - s.last > T then
        ({ awake := false, mode := none, last := s.last }, resetEff, 1)
      else
        match heard with
        | none => cmdRun T s rest
        | some txt =>
          let s1 : CmdState := { s with last := now }
          if anySubstr WAKE_WORDS (lowerStr txt) then cmdRun T s1 rest
          else
            let d := applyDispatch (processCommandKeyword txt) s1
            let r := cmdRun T d.1 rest
            (r.1, d.2 ++ r.2.1,
              (if s1.awake && !d.1.awake then 1 else 0) + r.2.2)
    else (s, [], 0)

/-- `dispatch_action` of `keyboard_control._make_dispatcher`: mode keys set
`autonomous_mode` and start the corresponding loop thread with no
precondition; everything else resolves against `ACTIONS_DICT` after
replacing underscores by spaces. -/
def dispatchKeyboard (name : String) (s : CmdState) : CmdState × List Effect :=
  if name = "mode_line" then
    ({ s with mode := some .line_track }, [.startLine])
  else if name = "mode_obstacle" then
    ({ s with mode := some .obstacle_avoid }, [.startObstacle])
  else if name = "mode_cancel" then
    ({ s with mode := none }, [.prim .halt, .prim (.setDir 0)])
  else if name = "horn" then (s, [.soundHorn])
  else
    let lookupName := name.replace "_" " "
    match lookupAction lookupName with
    | some a => (s, [.runAction a])
    | none =>
      match lookupAction name with
      | some a => (s, [.runAction a])
      | none => (s, [])

-- Unsynchronized concurrency of actuator calls.

/-- Fuelled recursion computing all order-preserving interleavings; the
fuel is always instantiated with the total length, so the zero-fuel case
is unreachable. -/
def interleavingsF : Nat → List α → List α → List (List α)
  | _, [], ys => [ys]
  | _, x :: xs, [] => [x :: xs]
  | 0, _ :: _, _ :: _ => []
  | n + 1, x :: xs, y :: ys =>
      (interleavingsF n xs (y :: ys)).map (x :: ·) ++
      (interleavingsF n (x :: xs) ys).map (y :: ·)

/-- All order-preserving interleavings of two call sequences: the source
has no arbitration layer, so any of these can be the order in which two
threads' direct `car.*` calls hit the hardware (`state.lock` only guards
the state flags, never the actuator calls, and the sequences contain
`time.sleep` holds). -/
def interleavings (xs ys : List α) : List (List α) :=
  interleavingsF (xs.length + ys.length) xs ys

/-- Whether a right-thread call executes strictly inside the left thread's
sequence (pattern: a left call, later a right call, later a left call). -/
def interruptedB (tr : List (Act ⊕ Act)) : Bool :=
  tr.tails.any fun s =>
    match s with
    | .inl _ :: r =>
      r.tails.any fun s2 =>
        match s2 with
        | .inr _ :: r2 => r2.any (·.isLeft)
        | _ => false
    | _ => false

/-- The trace set of the safety monitor's `Emergency` sequence running
concurrently with a pending `Manual` forward command. -/
def emergencyManualTraces : List (List (Act ⊕ Act)) :=
  interleavings (emergencySeq.map Sum.inl) (manualForwardActs.map Sum.inr)

/-- A specific trace in `emergencyManualTraces`: the manual forward drive
executes between the emergency sequence's steering call and its backward
drive. -/
def badTrace : List (Act ⊕ Act) :=
  [.inl (.setDir 0), .inr (.setDir 0), .inr (.fwd 30), .inl (.bwd MOVE_SPEED),
   .inl (.sleepMs 500), .inl .halt, .inr (.sleepMs 1000), .inr .halt]

-- Helper lemmas.

/-- Over a list sorted by non-increasing length, `find?` with a substring
test returns a match of maximal length among all matches in the list. -/
lemma find_first_max (t : String) :
    ∀ (l : List String), l.Pairwise (fun a b => b.length ≤ a.length) →
      ∀ k, l.find? (fun s => substrB s t) = some k →
        substrB k t = true ∧
        ∀ k2 ∈ l, substrB k2 t = true → k2.length ≤ k.length := by
  intro l
  induction l with
  | nil => intro _ k hk; simp [List.find?] at hk
  | cons a l ih =>
    intro hp k hk
    rcases List.pairwise_cons.mp hp with ⟨ha, hp2⟩
    by_cases hsa : substrB a t = true
    · rw [@List.find?_cons_of_pos _ (fun s => substrB s t) a l hsa] at hk
      cases hk
      refine ⟨hsa, ?_⟩
      intro k2 hk2 hsk2
      rcases List.mem_cons.mp hk2 with rfl | hk2
      · exact le_refl _
      · exact ha k2 hk2
    · rw [@List.find?_cons_of_neg _ (fun s => substrB s t) a l hsa] at hk
      obtain ⟨h1, h2⟩ := ih hp2 k hk
      refine ⟨h1, ?_⟩
      intro k2 hk2 hsk2
      rcases List.mem_cons.mp hk2 with rfl | hk2
      · exact absurd hsk2 hsa
      · exact h2 k2 hk2 hsk2

/-- Every `ACTIONS_DICT` keyword is in the length-sorted keyword list. -/
lemma keys_sub_sorted : ∀ k ∈ keysList, k ∈ sortedKeys := by decide

/-- The sorted keyword list is ordered by non-increasing length. -/
lemma sorted_pairwise :
    List.Pairwise (fun a b : String => b.length ≤ a.length) sortedKeys := by
  decide

/-- No `ACTIONS_DICT` keyword is a substring of the empty text. -/
lemma keys_substr_empty : ∀ k ∈ keysList, substrB k "" = false := by decide

/-- Invariant of the patrol sweep: with direction +1 the angle is in
[-50, 45], with direction -1 it is in [-45, 50]. -/
lemma patrol_inv : ∀ n : Nat,
    ((patrolIter n).2 = 1 ∧ -50 ≤ (patrolIter n).1 ∧ (patrolIter n).1 ≤ 45) ∨
    ((patrolIter n).2 = -1 ∧ -45 ≤ (patrolIter n).1 ∧ (patrolIter n).1 ≤ 50) := by
  intro n
  induction n with
  | zero => left; exact ⟨rfl, by decide, by decide⟩
  | succ n ih =>
    rw [show patrolIter (n + 1) = patrolStep (patrolIter n) from rfl]
    rcases hq : patrolIter n with ⟨a, d⟩
    rw [hq] at ih
    simp only [patrolStep]
    rcases ih with ⟨hd, hl, hr⟩ | ⟨hd, hl, hr⟩ <;> simp only at hd hl hr <;>
        subst hd <;> by_cases hc : a + 5 * (1 : Int) > 45 ∨ a + 5 * (1 : Int) < -45
    · right
      rw [if_pos hc]
      refine ⟨rfl, by omega, by omega⟩
    · left
      rw [if_neg hc]
      refine ⟨rfl, by omega, by omega⟩
    · rcases hc with hc | hc <;> omega
    · by_cases hc2 : a + 5 * (-1 : Int) > 45 ∨ a + 5 * (-1 : Int) < -45
      · left
        rw [if_pos hc2]
        refine ⟨by norm_num, by omega, by omega⟩
      · right
        rw [if_neg hc2]
        refine ⟨rfl, by omega, by omega⟩

/-- The safety-monitor loop processes exactly the ticks up to the first
one that observes `running == false`. -/
lemma safetyRun_length : ∀ (ts : List STick) (tc : Bool),
    (safetyRun tc ts).length = (ts.takeWhile (fun x => x.running)).length := by
  intro ts
  induction ts with
  | nil => intro tc; simp [safetyRun]
  | cons t ts ih =>
    intro tc
    cases hr : t.running
    · simp [safetyRun, hr]
    · simp [safetyRun, hr, ih]

-- C1.

/-- C1: on a safety-monitor tick with a (valid, positive) distance reading,
a distance below `TOO_CLOSE_DISTANCE` runs the emergency sequence (neutral
steering, backward drive for 0.5 s, stop) and sets `too_close`; otherwise a
distance below `DANGER_DISTANCE` with the autonomous mode `obstacle_avoid`
runs the steer-away sequence; otherwise `too_close` is cleared. -/
theorem safety_tick_thresholds :
    ∀ (d : ℚ) (mode : Option AutoMode) (tc : Bool), 0 < d →
      ((d < TOO_CLOSE_DISTANCE →
         safetyTickDist d mode tc = (emergencySeq, true)) ∧
       (¬ d < TOO_CLOSE_DISTANCE → d < DANGER_DISTANCE →
         mode = some .obstacle_avoid →
         safetyTickDist d mode tc = (safetyAvoidSeq, tc)) ∧
       (¬ d < TOO_CLOSE_DISTANCE →
         ¬ (d < DANGER_DISTANCE ∧ mode = some .obstacle_avoid) →
         safetyTickDist d mode tc = ([], false))) := by
  intro d mode tc h0
  refine ⟨?_, ?_, ?_⟩
  · intro h1
    simp only [safetyTickDist]
    rw [if_pos h0, if_pos h1]
  · intro h1 h2 h3
    simp only [safetyTickDist]
    rw [if_pos h0, if_neg h1, if_pos ⟨h2, h3⟩]
  · intro h1 h2
    simp only [safetyTickDist]
    rw [if_pos h0, if_neg h1, if_neg h2]

/-- Witness for C1: distance 9 (below the too-close threshold 10) with
line tracking active triggers the emergency sequence. -/
theorem safety_tick_thresholds_witness :
    safetyTickDist 9 (some .line_track) true = (emergencySeq, true) :=
  (safety_tick_thresholds 9 (some .line_track) true (by decide)).1
    (by decide)

-- C5.

/-- C5 counterexample: on tick 10 of the patrol sweep the commanded pan
angle is 50 degrees (the sweep commands 45 on tick 9, overshoots to 50, and
only then comes back), refuting the claim that the commanded angle never
reaches 50. -/
theorem patrol_sweep_reaches_50 :
    patrolAngle 9 = 45 ∧ patrolAngle 10 = 50 ∧ patrolAngle 11 = 45 := by
  decide

/-- C5 amended: the sweep direction reverses on the tick where the
incremented angle passes a bound of plus or minus 45, but the overshot
angle (50) is itself commanded on the following tick; the commanded angle
always stays within [-50, 50], with the sequence 45, 50, 45 at the bound. -/
theorem patrol_sweep_bounds :
    (∀ n, -50 ≤ patrolAngle n ∧ patrolAngle n ≤ 50) ∧
    patrolAngle 9 = 45 ∧ patrolAngle 10 = 50 ∧ patrolAngle 11 = 45 ∧
    (∀ n, patrolIter (n + 1) =
      ((patrolIter n).1 + 5 * (patrolIter n).2,
        if (patrolIter n).1 + 5 * (patrolIter n).2 > 45 ∨
            (patrolIter n).1 + 5 * (patrolIter n).2 < -45
        then -(patrolIter n).2 else (patrolIter n).2)) := by
  refine ⟨?_, by decide, by decide, by decide, fun n => rfl⟩
  intro n
  unfold patrolAngle
  rcases patrol_inv n with ⟨_, hl, hr⟩ | ⟨_, hl, hr⟩ <;> exact ⟨by omega, by omega⟩

-- C8.

/-- C8: a failed sensor read (distance or grayscale) contributes no
actuator calls on that tick and the loop continues with the next tick; the
loop stops exactly on observing `running == false` (the length of the
output equals the number of leading ticks with `running == true`). -/
theorem safety_monitor_error_handling :
    ∀ (tc : Bool) (t : STick) (ts : List STick),
      (t.running = true → t.distRead = none → t.cliffRead = none →
        safetyRun tc (t :: ts) = [] :: safetyRun tc ts) ∧
      (t.running = false → safetyRun tc (t :: ts) = []) ∧
      (safetyRun tc (t :: ts)).length =
        ((t :: ts).takeWhile (fun x => x.running)).length := by
  intro tc t ts
  refine ⟨?_, ?_, safetyRun_length (t :: ts) tc⟩
  · intro hr hd hc
    simp [safetyRun, hr, safetyTickActs, hd, hc]
  · intro hr
    simp [safetyRun, hr]

/-- Witness for C8: a tick whose reads both fail yields an empty effect
list, and the following not-running tick ends the loop. -/
theorem safety_monitor_error_handling_witness :
    safetyRun false
      [⟨true, none, none, none⟩, ⟨false, some 5, none, none⟩] = [[]] := by
  have h1 := (safety_monitor_error_handling false ⟨true, none, none, none⟩
    [⟨false, some 5, none, none⟩]).1 rfl rfl rfl
  have h2 := (safety_monitor_error_handling false ⟨false, some 5, none, none⟩
    []).2.1 rfl
  rw [h1, h2]

-- C10.

/-- C10: the keyboard dispatcher handles `mode_line`/`mode_obstacle` by
setting `autonomous_mode` and starting the corresponding loop thread, with
no precondition on `awake` and no check of the current mode; in particular
from an asleep state with no mode, dispatching `mode_line` yields
`awake == false` together with an active autonomous mode. -/
theorem keyboard_mode_dispatch_unconditional :
    ∀ s : CmdState,
      dispatchKeyboard "mode_line" s =
        ({ s with mode := some .line_track }, [.startLine]) ∧
      dispatchKeyboard "mode_obstacle" s =
        ({ s with mode := some .obstacle_avoid }, [.startObstacle]) ∧
      (dispatchKeyboard "mode_line" s).1.awake = s.awake ∧
      ((dispatchKeyboard "mode_line" ⟨false, none, 0⟩).1.awake = false ∧
       (dispatchKeyboard "mode_line" ⟨false, none, 0⟩).1.mode =
         some .line_track) := by
  intro s
  refine ⟨rfl, rfl, rfl, rfl, rfl⟩

-- C2.

/-- C2: for any timeout `T`, if the command loop is awake and none of its
iterations accepts a command, then as soon as an iteration observes
`now - last_command_time > T` the loop transitions to asleep exactly once
(and then exits), sets the autonomous mode to `None`, and its only
actuator effects are `reset_position` (all actuators neutral). -/
theorem command_timeout_sleeps_once :
    ∀ (T : ℚ) (s : CmdState) (inputs : List (ℚ × Option String)),
      s.awake = true →
      (∀ p ∈ inputs, p.2 = none) →
      (∃ p ∈ inputs, p.1 - s.last > T) →
      (cmdRun T s inputs).1.awake = false ∧
      (cmdRun T s inputs).1.mode = none ∧
      (cmdRun T s inputs).2.1 = resetEff ∧
      (cmdRun T s inputs).2.2 = 1 := by
  intro T s inputs
  induction inputs with
  | nil =>
    intro _ _ hex
    simp at hex
  | cons p rest ih =>
    intro haw hnone hex
    obtain ⟨now, heard⟩ := p
    have hh : heard = none := hnone (now, heard) (List.mem_cons_self _ _)
    subst hh
    by_cases ht : now - s.last > T
    · simp [cmdRun, haw, ht]
    · have hex2 : ∃ p ∈ rest, p.1 - s.last > T := by
        rcases hex with ⟨q, hq, hgt⟩
        rcases List.mem_cons.mp hq with rfl | hq2
        · exact absurd hgt ht
        · exact ⟨q, hq2, hgt⟩
      have hres := ih haw (fun q hq => hnone q (List.mem_cons_of_mem _ hq)) hex2
      simpa [cmdRun, haw, ht] using hres

/-- Witness for C2: from an awake state with an active mode and
`last_command_time = 0`, one silent iteration at time 31 with timeout 30
sleeps once, clears the mode, and neutralizes the actuators. -/
theorem command_timeout_sleeps_once_witness :
    (cmdRun 30 ⟨true, some .line_track, 0⟩ [(31, none)]).1.awake = false ∧
    (cmdRun 30 ⟨true, some .line_track, 0⟩ [(31, none)]).1.mode = none ∧
    (cmdRun 30 ⟨true, some .line_track, 0⟩ [(31, none)]).2.1 = resetEff ∧
    (cmdRun 30 ⟨true, some .line_track, 0⟩ [(31, none)]).2.2 = 1 :=
  command_timeout_sleeps_once 30 ⟨true, some .line_track, 0⟩ [(31, none)] rfl
    (by simp) ⟨(31, none), by simp, by norm_num⟩

-- C4.

/-- C4 counterexample: with last non-lost classification Right and a lost
line, the recovery steers the direction servo to +30 while backing up; in
the sign convention of the repository's own turn primitives (`turn_left`
steers negative, `turn_right` positive) this is a right steer, not the
left steer the claim states (the backward drive part does hold). -/
theorem line_loss_recovery_not_left :
    (lineTrackTick .rightS 0 0 0).2 = [Act.setDir 30, Act.bwd 10] ∧
    steersLeftB (lineTrackTick .rightS 0 0 0).2 = false ∧
    drivesBackwardB (lineTrackTick .rightS 0 0 0).2 = true ∧
    drivesForwardB (lineTrackTick .rightS 0 0 0).2 = false ∧
    steersLeftB turnLeftActs = true ∧
    steersLeftB turnRightActs = false := by
  decide

/-- C4 amended: on a lost line, the recovery backs up (never drives
forward) and steers +30 when the last non-lost classification was Right,
and -30 when it was Left — i.e. it reverse-steers with the sign opposite to
the in-line correction for that classification (`rightS` tracks with -20,
`leftS` with +20), which is the turn-right resp. turn-left sign of the
repository's primitives. -/
theorem line_loss_recovery_reverse_steer :
    ∀ (lastSt : GmState) (s0 s1 s2 : Nat),
      classify s0 s1 s2 = .stopS →
      ((lastSt = .rightS →
        (lineTrackTick lastSt s0 s1 s2).2 = [Act.setDir 30, Act.bwd 10]) ∧
       (lastSt = .leftS →
        (lineTrackTick lastSt s0 s1 s2).2 = [Act.setDir (-30), Act.bwd 10]) ∧
       drivesForwardB (lineTrackTick lastSt s0 s1 s2).2 = false) := by
  intro lastSt s0 s1 s2 hc
  refine ⟨?_, ?_, ?_⟩
  · rintro rfl
    simp [lineTrackTick, hc]
  · rintro rfl
    simp [lineTrackTick, hc]
  · cases lastSt <;> simp [lineTrackTick, hc, drivesForwardB]

/-- Witness for C4 (amended): all sensors dark, last classification Right:
the recovery is steer +30 and back up. -/
theorem line_loss_recovery_reverse_steer_witness :
    (lineTrackTick .rightS 0 0 0).2 = [Act.setDir 30, Act.bwd 10] :=
  (line_loss_recovery_reverse_steer .rightS 0 0 0 (by decide)).1 rfl

-- C9.

/-- C9 counterexample: the code has no arbiter — among the possible
hardware-call orders of the emergency sequence running concurrently with a
pending manual forward command (all order-preserving interleavings, since
no lock guards the `car.*` calls), there is one (`badTrace`) in which the
manual command executes strictly inside the emergency sequence, refuting
the claim that a lower-priority submission is rejected rather than
interleaved. -/
theorem arbiter_rejection_refuted :
    emergencyManualTraces.all (fun tr => !(interruptedB tr)) = false ∧
    emergencyManualTraces.any (fun tr => decide (tr = badTrace)) = true ∧
    interruptedB badTrace = true := by
  decide

/-- C9 amended: the safety monitor emits the full emergency sequence
within the same tick in which it reads a distance below
`TOO_CLOSE_DISTANCE`, but there is no serialization or priority: a pending
manual submission is neither rejected nor queued — every interleaving
preserves each thread's own call order and some interleaving places the
manual calls inside the emergency sequence. -/
theorem no_arbiter_emergency_interleaving :
    (∀ (d : ℚ) (mode : Option AutoMode) (tc : Bool),
      0 < d → d < TOO_CLOSE_DISTANCE →
      safetyTickDist d mode tc = (emergencySeq, true)) ∧
    emergencyManualTraces.any interruptedB = true ∧
    emergencyManualTraces.all
      (fun tr => decide (tr.filterMap Sum.getLeft? = emergencySeq) &&
        decide (tr.filterMap Sum.getRight? = manualForwardActs)) = true := by
  refine ⟨?_, by decide, by decide⟩
  intro d mode tc h0 h1
  simp only [safetyTickDist]
  rw [if_pos h0, if_pos h1]

/-- Witness for C9 (amended): distance 5 triggers the emergency emission
within the tick. -/
theorem no_arbiter_emergency_interleaving_witness :
    safetyTickDist 5 none false = (emergencySeq, true) :=
  no_arbiter_emergency_interleaving.1 5 none false (by decide) (by decide)

-- C3.

/-- C3: for a normalized text with no system-command match and no exact
`ACTIONS_DICT` match, if any keyword is a substring of the text then the
dispatcher resolves to a substring match whose keyword has maximal length
among all matching keywords; in particular "please turn left now" resolves
to the keyword "turn left", bound to the turn-left action. -/
theorem keyword_longest_match :
    (∀ t : String,
      sysMatchB (normText t) = false →
      keysList.contains (normText t) = false →
      ∀ k0 ∈ keysList, substrB k0 (normText t) = true →
        ∃ k, processCommandKeyword t = .substrMatch k ∧
          substrB k (normText t) = true ∧
          ∀ k2 ∈ keysList, substrB k2 (normText t) = true →
            k2.length ≤ k.length) ∧
    processCommandKeyword "please turn left now" = .substrMatch "turn left" ∧
    lookupAction "turn left" = some Action.turn_left := by
  refine ⟨?_, by decide, by decide⟩
  intro t hsys hcontains k0 hk0 hs0
  simp only [sysMatchB, Bool.or_eq_false_iff] at hsys
  obtain ⟨⟨⟨⟨⟨⟨⟨⟨h1, h2⟩, h3⟩, h4⟩, h5⟩, h6⟩, h7⟩, h8⟩, h9⟩ := hsys
  have hne : ¬ (normText t = "") := by
    intro h0
    rw [h0] at hs0
    rw [keys_substr_empty k0 hk0] at hs0
    exact Bool.false_ne_true hs0
  have hsome : (sortedKeys.find? (fun k => substrB k (normText t))).isSome :=
    List.find?_isSome.mpr ⟨k0, keys_sub_sorted k0 hk0, hs0⟩
  obtain ⟨k, hk⟩ := Option.isSome_iff_exists.mp hsome
  obtain ⟨hsk, hmax⟩ := find_first_max (normText t) sortedKeys sorted_pairwise k hk
  refine ⟨k, ?_, hsk, fun k2 hk2 hs2 => hmax k2 (keys_sub_sorted k2 hk2) hs2⟩
  have hnotmem : normText t ∉ keysList := by simpa using hcontains
  simp [processCommandKeyword, hne, h1, h2, h3, h4, h5, h6, h7, h8, h9,
    hnotmem, hk]

/-- Witness for C3: "please turn left now" resolves to a maximal-length
substring match. -/
theorem keyword_longest_match_witness :
    ∃ k, processCommandKeyword "please turn left now" = .substrMatch k ∧
      substrB k (normText "please turn left now") = true ∧
      ∀ k2 ∈ keysList, substrB k2 (normText "please turn left now") = true →
        k2.length ≤ k.length :=
  keyword_longest_match.1 "please turn left now" (by decide) (by decide)
    "left" (by decide) (by decide)

-- C6.

/-- C6 counterexample: the system commands are matched by substring, not
by exact keyword-set membership — the text "asleep" (already normalized,
and not in the sleep keyword set) is resolved as the sleep command because
"sleep" occurs inside it. -/
theorem system_command_substring_not_exact :
    processCommandKeyword "asleep" = .sleepCmd ∧
    "asleep" ∉ sleepWords ∧
    normText "asleep" = "asleep" := by
  decide

/-- C6 amended: system commands (sleep, cancel-mode, mode-entry, horn,
engine, status, help, and the bare stop) are resolved by substring keyword
match — except the bare stop/halt/freeze, which is an exact full-text
match — at highest precedence: the dispatcher returns a system outcome
exactly when one of these checks fires, before any exact or substring
`ACTIONS_DICT` lookup, and reads no other state. -/
theorem system_command_precedence :
    (∀ t : String,
      isSystemResult (processCommandKeyword t) = sysMatchB (normText t)) ∧
    (∀ t : String, normText t ≠ "" → sleepB (normText t) = true →
      processCommandKeyword t = .sleepCmd) := by
  constructor
  · intro t
    by_cases h0 : normText t = ""
    · simp only [processCommandKeyword]
      rw [if_pos h0, h0]
      decide
    · simp only [processCommandKeyword]
      rw [if_neg h0]
      cases h1 : sleepB (normText t) with
      | true => rw [if_pos rfl]; simp [isSystemResult, sysMatchB, h1]
      | false =>
      rw [if_neg Bool.false_ne_true]
      cases h2 : stopModeB (normText t) with
      | true => rw [if_pos rfl]; simp [isSystemResult, sysMatchB, h1, h2]
      | false =>
      rw [if_neg Bool.false_ne_true]
      cases h3 : lineModeB (normText t) with
      | true => rw [if_pos rfl]; simp [isSystemResult, sysMatchB, h1, h2, h3]
      | false =>
      rw [if_neg Bool.false_ne_true]
      cases h4 : obstacleModeB (normText t) with
      | true =>
        rw [if_pos rfl]
        simp [isSystemResult, sysMatchB, h1, h2, h3, h4]
      | false =>
      rw [if_neg Bool.false_ne_true]
      cases h5 : hornB (normText t) with
      | true =>
        rw [if_pos rfl]
        simp [isSystemResult, sysMatchB, h1, h2, h3, h4, h5]
      | false =>
      rw [if_neg Bool.false_ne_true]
      cases h6 : engineB (normText t) with
      | true =>
        rw [if_pos rfl]
        simp [isSystemResult, sysMatchB, h1, h2, h3, h4, h5, h6]
      | false =>
      rw [if_neg Bool.false_ne_true]
      cases h7 : statusB (normText t) with
      | true =>
        rw [if_pos rfl]
        simp [isSystemResult, sysMatchB, h1, h2, h3, h4, h5, h6, h7]
      | false =>
      rw [if_neg Bool.false_ne_true]
      cases h8 : helpB (normText t) with
      | true =>
        rw [if_pos rfl]
        simp [isSystemResult, sysMatchB, h1, h2, h3, h4, h5, h6, h7, h8]
      | false =>
      rw [if_neg Bool.false_ne_true]
      cases h9 : stopExactB (normText t) with
      | true =>
        rw [if_pos rfl]
        simp [isSystemResult, sysMatchB, h1, h2, h3, h4, h5, h6, h7, h8, h9]
      | false =>
      rw [if_neg Bool.false_ne_true]
      have hsys : sysMatchB (normText t) = false := by
        simp [sysMatchB, h1, h2, h3, h4, h5, h6, h7, h8, h9]
      rw [hsys]
      cases hc : keysList.contains (normText t) with
      | true => rw [if_pos rfl]; rfl
      | false =>
      rw [if_neg Bool.false_ne_true]
      cases hfind : sortedKeys.find? (fun k => substrB k (normText t)) with
      | none => rfl
      | some k => rfl
  · intro t h0 h1
    simp only [processCommandKeyword]
    rw [if_neg h0, if_pos h1]

/-- Witness for C6 (amended): a sleep keyword occurring as a substring
resolves to the sleep command. -/
theorem system_command_precedence_witness :
    processCommandKeyword "go to sleep now" = .sleepCmd :=
  system_command_precedence.2 "go to sleep now" (by decide) (by decide)

-- C7.

/-- C7 counterexample: when `too_close` is set, the chat-failure fallback
does not resolve the same command text — for the command "dance" it
resolves the annotated text, reaching the substring branch, while the
command text itself is an exact match. -/
theorem llm_fallback_text_differs :
    processCommandLLM none true "0" "dance" =
      .fellBack (.substrMatch "dance") ∧
    processCommandKeyword "dance" = .exactMatch "dance" ∧
    processCommandLLM none true "0" "dance" ≠
      .fellBack (processCommandKeyword "dance") := by
  decide

/-- C7 amended: when the chat call fails, the keyword dispatch is applied
to exactly the text that was prepared for the chat — the normalized
command text, prefixed with the ultrasonic annotation when `too_close` was
set, and the unchanged command text otherwise; the fallback is
per-command: a call whose chat succeeds is handled by the chat path
regardless of any other call. -/
theorem llm_fallback_keyword_dispatch :
    (∀ (tc : Bool) (d t : String),
      normText t ≠ "" → sleepB (normText t) = false →
      stopExactB (normText t) = false →
      processCommandLLM none tc d t =
        .fellBack (processCommandKeyword (annotate tc d (normText t)))) ∧
    (∀ d n0 : String, annotate false d n0 = n0) ∧
    (∀ (resp : String) (tc : Bool) (d t : String),
      normText t ≠ "" → sleepB (normText t) = false →
      stopExactB (normText t) = false →
      processCommandLLM (some resp) tc d t = .chatHandled resp) := by
  refine ⟨?_, fun d n0 => rfl, ?_⟩
  · intro tc d t h0 h1 h2
    simp only [processCommandLLM]
    rw [if_neg h0, if_neg (by simp [h1]), if_neg (by simp [h2])]
  · intro resp tc d t h0 h1 h2
    simp only [processCommandLLM]
    rw [if_neg h0, if_neg (by simp [h1]), if_neg (by simp [h2])]

/-- Witness for C7 (amended): with `too_close` clear, the chat-failure
fallback dispatches the unchanged normalized command text. -/
theorem llm_fallback_keyword_dispatch_witness :
    processCommandLLM none false "0" "spin" =
      .fellBack (processCommandKeyword (annotate false "0" (normText "spin"))) :=
  llm_fallback_keyword_dispatch.1 false "0" "spin" (by decide) (by decide)
    (by decide)

end OkayRobot
